import Mathlib

/-!
Verification of the SQL-construction core of `main.py` (AI-assisted SQL helper).

The development shallowly embeds the Python source: JSON-like Python values
become `JValue`, psycopg2 `sql.Composable` trees become flat token lists
(`Composed`, render-equivalent to psycopg2's recursive concatenation),
Python exceptions become `Except String`, and external dependencies
(`json.loads`, the database cursor) become function parameters.
-/

namespace SqlAssist

/-- A Python value as produced by `json.loads` / supplied by the tool-call
layer: JSON null, booleans, integers, strings, lists and dicts.
(JSON floats are not modelled; no verified property depends on them.)
A `.obj` models a Python dict whose keys are distinct, in insertion order. -/
inductive JValue where
  | null
  | bool (b : Bool)
  | int (n : Int)
  | str (s : String)
  | arr (elems : List JValue)
  | obj (fields : List (String × JValue))

/-- Python truthiness (`bool(v)`) on the modelled values. -/
def truthy : JValue → Bool
  | .null => false
  | .bool b => b
  | .int n => n != 0
  | .str s => !s.isEmpty
  | .arr l => !l.isEmpty
  | .obj l => !l.isEmpty

/-- One token of a psycopg2 `sql` composable: `sql.SQL` text, a validated
`sql.Identifier`, a `sql.Placeholder`, or a `sql.Literal`. -/
inductive SqlTok where
  | raw (s : String)
  | ident (name : String)
  | placeholder
  | lit (v : JValue)

/-- A psycopg2 `Composed`, flattened to a token sequence (rendering
concatenates tokens left to right, exactly as psycopg2 renders its tree). -/
abbrev Composed := List SqlTok

/-- Double every double-quote character, as psycopg2 does when rendering
`sql.Identifier`. -/
def escapeQuotes : List Char → List Char
  | [] => []
  | c :: cs => if c = '"' then '"' :: '"' :: escapeQuotes cs else c :: escapeQuotes cs

/-- psycopg2 rendering of `sql.Identifier(n)`: `"..."` with inner quotes doubled. -/
def quoteIdent (n : String) : String :=
  "\"" ++ String.mk (escapeQuotes n.data) ++ "\""

/-- Double every single-quote character (psycopg2 string-literal escaping). -/
def escapeSingles : List Char → List Char
  | [] => []
  | c :: cs =>
      if c = Char.ofNat 39 then Char.ofNat 39 :: Char.ofNat 39 :: escapeSingles cs
      else c :: escapeSingles cs

/-- psycopg2 rendering of `sql.Literal(v)` for the value kinds this program
can pass to `Literal` (only `limit` values, i.e. ints and bools, reach it;
the other cases are given for totality). -/
def renderLit : JValue → String
  | .null => "NULL"
  | .bool b => if b then "true" else "false"
  | .int n => toString n
  | .str s => "\x27" ++ String.mk (escapeSingles s.data) ++ "\x27"
  | .arr _ => "ARRAY[]"
  | .obj _ => "OBJECT"

/-- Render one token to SQL text (`as_string`). Placeholders render as the
driver's positional marker `%s`. -/
def renderTok : SqlTok → String
  | .raw s => s
  | .ident n => quoteIdent n
  | .placeholder => "%s"
  | .lit v => renderLit v

/-- Render a composed statement to its SQL text. -/
def render : Composed → String
  | [] => ""
  | t :: ts => renderTok t ++ render ts

/-- Model of `sql.SQL(sep).join(parts)`: interleave the separator between parts. -/
def sqlJoin (sep : Composed) : List Composed → Composed
  | [] => []
  | [c] => c
  | c :: c' :: cs => c ++ sep ++ sqlJoin sep (c' :: cs)

/-- Is this token a parameter placeholder? -/
def isPlaceholderTok : SqlTok → Bool
  | .placeholder => true
  | _ => false

/-- Number of parameter placeholders in a fragment. -/
def countPh (c : Composed) : Nat := c.countP isPlaceholderTok

/-- Is this token anything but an inlined literal value? -/
def notLitTok : SqlTok → Bool
  | .lit _ => false
  | _ => true

/-- A fragment is literal-free when no `sql.Literal` token occurs in it. -/
def noLit (c : Composed) : Bool := c.all notLitTok

/-! ## The identifier and type-fragment regular expressions -/

/-- First character of `^[A-Za-z_][A-Za-z0-9_]*$`. -/
def isIdentStart (c : Char) : Bool := c.isAlpha || c = '_'

/-- Later characters of `^[A-Za-z_][A-Za-z0-9_]*$`. -/
def isIdentChar (c : Char) : Bool := c.isAlphanum || c = '_'

/-- The language of the spec's identifier regex `^[A-Za-z_][A-Za-z0-9_]*$`,
read as a full anchored match (the spec's words, §3 and §8). -/
def matchesIdentRegex (s : String) : Bool :=
  match s.data with
  | [] => false
  | c :: cs => isIdentStart c && cs.all isIdentChar

/-- Truthiness of `_IDENTIFIER_RE.match(name)` with Python `re` semantics:
`$` also matches just before one trailing newline at the end of the string. -/
def pyMatchIdent (s : String) : Bool :=
  matchesIdentRegex s ||
    (match s.data.getLast? with
     | some c => c = '\n' && matchesIdentRegex (String.mk s.data.dropLast)
     | none => false)

/-- ASCII whitespace accepted by the regex class `\s`. -/
def isPySpaceAscii (c : Char) : Bool :=
  c = ' ' || c = '\t' || c = '\n' || c = '\r' || c = '\x0b' || c = '\x0c'

/-- One character of the DDL allow-list class `[A-Z0-9_(),\s]`. -/
def isTypeFragChar (c : Char) : Bool :=
  ('A' ≤ c && c ≤ 'Z') || c.isDigit || c = '_' || c = '(' || c = ')' || c = ',' ||
    isPySpaceAscii c

/-- The anchored language of `_TYPE_RE = ^[A-Z0-9_(),\s]+$`. -/
def typeRegexLang (s : String) : Bool :=
  !s.isEmpty && s.data.all isTypeFragChar

/-- Truthiness of `_TYPE_RE.match(s)` with Python `re` `$` semantics
(one trailing newline tolerated; `\n` is in the class anyway). -/
def pyMatchType (s : String) : Bool :=
  typeRegexLang s ||
    (match s.data.getLast? with
     | some c => c = '\n' && typeRegexLang (String.mk s.data.dropLast)
     | none => false)

/-- Python `s.upper()` restricted to ASCII case mapping (the characters the
allow-list can accept are ASCII; exotic Unicode case-mapping is not modelled). -/
def pyUpper (s : String) : String := String.mk (s.data.map Char.toUpper)

/-- Does the character list contain two consecutive dashes? -/
def containsDashDashL : List Char → Bool
  | [] => false
  | [_] => false
  | c :: c' :: cs => (c = '-' && c' = '-') || containsDashDashL (c' :: cs)

/-- Does the string contain the two-character sequence `--`? -/
def containsDashDash (s : String) : Bool := containsDashDashL s.data

/-! ## Validators (`_ident`, type check, `_parse`) and dict access -/

/-- Model of `_ident` (main.py:47-50): requires a string matching `_IDENTIFIER_RE`
(Python `re.match` semantics) and returns it unchanged, to be wrapped as a
`sql.Identifier`; everything else raises `ValueError`. -/
def _ident (name : JValue) : Except String String :=
  match name with
  | .str s =>
      if pyMatchIdent s then .ok s else .error ("Geçersiz isim: " ++ s)
  | _ => .error "Geçersiz isim: (not a string)"

/-- The type-fragment acceptance condition of `create_sql_table`
(main.py:106): the value is a string and `_TYPE_RE` matches its upper-casing. -/
def typeFragOk : JValue → Bool
  | .str s => pyMatchType (pyUpper s)
  | _ => false

/-- Model of `_parse` (main.py:52-63): `None`/empty string rejected; dict or list
accepted as-is; other strings go through `json.loads` (modelled as the
parameter `jsonLoads`) and the result must be a dict; any other value makes
`json.loads` raise `TypeError`. -/
def _parse (jsonLoads : String → Except String JValue) : JValue → Except String JValue
  | .null => .error "content boş. JSON string bekleniyor."
  | .str s =>
      if s.isEmpty then .error "content boş. JSON string bekleniyor."
      else
        match jsonLoads s with
        | .error e => .error e
        | .ok (.obj fields) => .ok (.obj fields)
        | .ok _ => .error "content bir JSON obje olmalı."
  | .obj fields => .ok (.obj fields)
  | .arr elems => .ok (.arr elems)
  | _ => .error "TypeError: the JSON object must be str"

/-- Python `data[k]` for a string key: `KeyError` when absent, `TypeError`
when `data` is a list (string indices are invalid for lists). -/
def pyIndexStr (data : JValue) (k : String) : Except String JValue :=
  match data with
  | .obj fields =>
      match fields.lookup k with
      | some v => .ok v
      | none => .error ("KeyError: " ++ k)
  | _ => .error "TypeError: indices must be integers"

/-- Python `data.get(k, dflt)`: `AttributeError` when `data` is not a dict. -/
def pyGetD (data : JValue) (k : String) (dflt : JValue) : Except String JValue :=
  match data with
  | .obj fields => .ok ((fields.lookup k).getD dflt)
  | _ => .error "AttributeError: object has no attribute get"

/-- Python `data.get(k)` (default `None`). -/
def pyGet (data : JValue) (k : String) : Except String JValue := pyGetD data k .null

/-! ## The predicate builder `_build_where_simple` (main.py:65-84) -/

/-- The clause and parameters contributed by one `where` entry whose key has
validated to `col` (main.py:72-83): `None` → `IS NULL`, empty list →
`FALSE`, non-empty list → `IN (%s, ..., %s)` with the elements as
parameters, anything else → `= %s` with the value as parameter. -/
def whereClause (col : String) (val : JValue) : Composed × List JValue :=
  match val with
  | .null => ([.ident col, .raw " IS NULL"], [])
  | .arr vs =>
      if vs.isEmpty then ([.raw "FALSE"], [])
      else
        ([SqlTok.ident col, .raw " IN ("] ++
           sqlJoin [.raw ", "] (vs.map fun _ => [SqlTok.placeholder]) ++ [.raw ")"],
         vs)
  | v => ([.ident col, .raw " = ", .placeholder], [v])

/-- The loop of `_build_where_simple`: validate each key with `_ident`, then
accumulate clauses and positional parameters in iteration order. -/
def buildWhereEntries : List (String × JValue) → Except String (List Composed × List JValue)
  | [] => .ok ([], [])
  | (k, v) :: rest => do
      let col ← _ident (.str k)
      let (cs, ps) ← buildWhereEntries rest
      let (c, p) := whereClause col v
      .ok (c :: cs, p ++ ps)

/-- Model of `_build_where_simple` (main.py:65-84). A falsy argument yields the empty
fragment; a truthy non-dict raises (`.items()` on a non-dict); otherwise the
clauses are joined with `AND` and prefixed with `WHERE`. -/
def _build_where_simple (w : JValue) : Except String (Composed × List JValue) :=
  if truthy w = false then .ok ([], [])
  else
    match w with
    | .obj entries => do
        let (clauses, params) ← buildWhereEntries entries
        if clauses.isEmpty then .ok ([], [])
        else .ok (.raw " WHERE " :: sqlJoin [.raw " AND "] clauses, params)
    | _ => .error "AttributeError: object has no attribute items"

/-- The shape of a `where` value: what the fragment text may depend on. -/
inductive WhereShape where
  | nullSh
  | listSh (n : Nat)
  | scalarSh
  deriving DecidableEq

/-- Shape of a value: null, list of a given length, or scalar. -/
def shapeOf : JValue → WhereShape
  | .null => .nullSh
  | .arr vs => .listSh vs.length
  | _ => .scalarSh

/-- The clause text determined by a key and a value shape alone. -/
def shapeClause (col : String) : WhereShape → Composed
  | .nullSh => [.ident col, .raw " IS NULL"]
  | .listSh 0 => [.raw "FALSE"]
  | .listSh (n + 1) =>
      [SqlTok.ident col, .raw " IN ("] ++
        sqlJoin [.raw ", "] (List.replicate (n + 1) [SqlTok.placeholder]) ++ [.raw ")"]
  | .scalarSh => [.ident col, .raw " = ", .placeholder]

/-- Clause list computed from keys and shapes only. -/
def buildWhereShapes : List (String × WhereShape) → Except String (List Composed)
  | [] => .ok []
  | (k, sh) :: rest => do
      let col ← _ident (.str k)
      let cs ← buildWhereShapes rest
      .ok (shapeClause col sh :: cs)

/-- The WHERE fragment computed from keys and shapes only. -/
def whereFragFromShapes (l : List (String × WhereShape)) : Except String Composed :=
  if l.isEmpty then .ok []
  else
    match buildWhereShapes l with
    | .error e => .error e
    | .ok clauses =>
        if clauses.isEmpty then .ok []
        else .ok (.raw " WHERE " :: sqlJoin [.raw " AND "] clauses)

/-! ## Query builders (main.py:87-278)

Each builder is modelled up to (and excluding) cursor execution: it either
raises (returns `.error`) or produces the composed statement and its
positional parameter list (for DDL also the success message computed from the
validated table name). The `jsonLoads` parameter stands for Python's
`json.loads`. Evaluation order of validations matches the source. -/

/-- Validator `_ident` applied to each element of a list (a Python comprehension:
the first failure raises). -/
def mapIdent : List JValue → Except String (List String)
  | [] => .ok []
  | v :: vs => do
      let i ← _ident v
      let rest ← mapIdent vs
      .ok (i :: rest)

/-- The column-definition loop of `create_sql_table` (main.py:103-108):
for each column, check the type fragment against `_TYPE_RE` on its
upper-casing, then validate the column name; the definition keeps the
fragment's original casing (`sql.SQL(column_type)`). -/
def buildColumnDefs : List (String × JValue) → Except String (List Composed)
  | [] => .ok []
  | (cname, ctype) :: rest =>
      match ctype with
      | .str ts =>
          if pyMatchType (pyUpper ts) then do
            let col ← _ident (.str cname)
            let defs ← buildColumnDefs rest
            .ok ([SqlTok.ident col, .raw " ", .raw ts] :: defs)
          else .error ("Geçersiz/izin verilmeyen kolon tipi/kısıtı: " ++ ts)
      | _ => .error "Geçersiz/izin verilmeyen kolon tipi/kısıtı"

/-- Model of `create_sql_table` (main.py:87-117), up to execution: returns the DDL
statement and the success message. -/
def create_sql_table (jsonLoads : String → Except String JValue) (content : JValue) :
    Except String (Composed × String) := do
  let data ← _parse jsonLoads content
  let table ← pyIndexStr data "table"
  let columns ← pyIndexStr data "columns"
  let if_not_exists := truthy (← pyGetD data "if_not_exists" (.bool true))
  match columns with
  | .obj cols =>
      if cols.isEmpty then .error "'columns' dict olmalı ve boş olmamalı."
      else do
        let defs ← buildColumnDefs cols
        let t ← _ident table
        .ok ([SqlTok.raw "CREATE TABLE "] ++
               (if if_not_exists then [SqlTok.raw "IF NOT EXISTS "] else [SqlTok.raw ""]) ++
               [SqlTok.ident t, .raw " ("] ++ sqlJoin [.raw ", "] defs ++ [SqlTok.raw ")"],
             t ++ " tablosu oluşturuldu (ya da zaten vardı).")
  | _ => .error "'columns' dict olmalı ve boş olmamalı."

/-- Model of `drop_sql_table` (main.py:119-139), up to execution. -/
def drop_sql_table (jsonLoads : String → Except String JValue) (content : JValue) :
    Except String (Composed × String) := do
  let data ← _parse jsonLoads content
  let table ← pyIndexStr data "table"
  let if_exists := truthy (← pyGetD data "if_exists" (.bool true))
  let cascade := truthy (← pyGetD data "cascade" (.bool false))
  let t ← _ident table
  .ok ([SqlTok.raw "DROP TABLE "] ++
         (if if_exists then [SqlTok.raw "IF EXISTS "] else [SqlTok.raw ""]) ++
         [SqlTok.ident t] ++
         (if cascade then [SqlTok.raw " CASCADE"] else [SqlTok.raw ""]),
       if if_exists then t ++ " tablosu silindi."
       else t ++ " tablosu drop komutu uygulandı.")

/-- Model of `insert_sql_entry` (main.py:141-161), up to execution. -/
def insert_sql_entry (jsonLoads : String → Except String JValue) (content : JValue) :
    Except String (Composed × List JValue) := do
  let data ← _parse jsonLoads content
  let table ← pyIndexStr data "table"
  let values ← pyIndexStr data "values"
  match values with
  | .obj vals =>
      if vals.isEmpty then .error "'values' dict olmalı ve boş olmamalı."
      else do
        let colIds ← mapIdent (vals.map fun p => JValue.str p.1)
        let params := vals.map Prod.snd
        let t ← _ident table
        .ok ([SqlTok.raw "INSERT INTO ", .ident t, .raw " ("] ++
               sqlJoin [.raw ", "] (colIds.map fun c => [SqlTok.ident c]) ++
               [SqlTok.raw ") VALUES ("] ++
               sqlJoin [.raw ", "] (colIds.map fun _ => [SqlTok.placeholder]) ++
               [SqlTok.raw ") RETURNING *"],
             params)
  | _ => .error "'values' dict olmalı ve boş olmamalı."

/-- Python `isinstance(v, int)`: `bool` is a subclass of `int`. -/
def pyIsInstInt : JValue → Bool
  | .int _ => true
  | .bool _ => true
  | _ => false

/-- Python `v > 0` for values that pass `isinstance(v, int)`
(`True > 0` holds, `False > 0` does not). -/
def pyGtZero : JValue → Bool
  | .int n => 0 < n
  | .bool b => b
  | _ => false

/-- The condition under which a `LIMIT` clause is appended
(main.py:180, 272): `isinstance(limit, int) and limit > 0`. -/
def limitApplies (v : JValue) : Bool := pyIsInstInt v && pyGtZero v

/-- The `columns` handling of `read_sql_entry` (main.py:175): falsy →
`*`; otherwise iterate the value — a list yields its elements, a string its
one-character substrings, a dict its keys — validating each as identifier. -/
def readColumns (columns : JValue) : Except String Composed :=
  if truthy columns = false then .ok [SqlTok.raw "*"]
  else
    match columns with
    | .arr cs => do
        let ids ← mapIdent cs
        .ok (sqlJoin [.raw ", "] (ids.map fun i => [SqlTok.ident i]))
    | .str s => do
        let ids ← mapIdent (s.data.map fun ch => JValue.str (String.mk [ch]))
        .ok (sqlJoin [.raw ", "] (ids.map fun i => [SqlTok.ident i]))
    | .obj fs => do
        let ids ← mapIdent (fs.map fun p => JValue.str p.1)
        .ok (sqlJoin [.raw ", "] (ids.map fun i => [SqlTok.ident i]))
    | _ => .error "TypeError: object is not iterable"

/-- Model of `read_sql_entry` (main.py:163-186), up to execution. -/
def read_sql_entry (jsonLoads : String → Except String JValue) (content : JValue) :
    Except String (Composed × List JValue) := do
  let data ← _parse jsonLoads content
  let table ← pyIndexStr data "table"
  let columns ← pyGet data "columns"
  let colSql ← readColumns columns
  let (whereSql, params) ← _build_where_simple (← pyGetD data "where" (.obj []))
  let t ← _ident table
  let query := [SqlTok.raw "SELECT "] ++ colSql ++ [SqlTok.raw " FROM ", .ident t] ++ whereSql
  let limit ← pyGet data "limit"
  let query := if limitApplies limit then query ++ [SqlTok.raw " LIMIT ", .lit limit] else query
  .ok (query, params)

/-- Model of `delete_sql_entry` (main.py:188-204), up to execution. A falsy or absent
`where` raises before any statement is composed. -/
def delete_sql_entry (jsonLoads : String → Except String JValue) (content : JValue) :
    Except String (Composed × List JValue) := do
  let data ← _parse jsonLoads content
  let table ← pyIndexStr data "table"
  let wv ← pyGet data "where"
  if truthy wv = false then .error "Güvenlik için WHERE zorunludur."
  else do
    let (whereSql, params) ← _build_where_simple wv
    let t ← _ident table
    .ok ([SqlTok.raw "DELETE FROM ", .ident t] ++ whereSql ++ [SqlTok.raw " RETURNING *"],
         params)

/-- The `SET` loop of `update_sql_entry` (main.py:220-224). -/
def buildSetClauses : List (String × JValue) → Except String (List Composed × List JValue)
  | [] => .ok ([], [])
  | (k, v) :: rest => do
      let col ← _ident (.str k)
      let (cs, ps) ← buildSetClauses rest
      .ok ([SqlTok.ident col, .raw " = ", .placeholder] :: cs, v :: ps)

/-- Model of `update_sql_entry` (main.py:206-237), up to execution. Empty/absent
`set` and falsy/absent `where` raise before any statement is composed;
where-parameters follow set-parameters. -/
def update_sql_entry (jsonLoads : String → Except String JValue) (content : JValue) :
    Except String (Composed × List JValue) := do
  let data ← _parse jsonLoads content
  let table ← pyIndexStr data "table"
  let set_map ← pyGet data "set"
  let wv ← pyGet data "where"
  match set_map with
  | .obj sets =>
      if sets.isEmpty then .error "'set' dict olmalı ve boş olmamalı."
      else if truthy wv = false then .error "Güvenlik için WHERE zorunludur."
      else do
        let (setClauses, params) ← buildSetClauses sets
        let (whereSql, whereParams) ← _build_where_simple wv
        let t ← _ident table
        .ok ([SqlTok.raw "UPDATE ", .ident t, .raw " SET "] ++
               sqlJoin [.raw ", "] setClauses ++ whereSql ++ [SqlTok.raw " RETURNING *"],
             params ++ whereParams)
  | _ => .error "'set' dict olmalı ve boş olmamalı."

/-- The wildcard handling of `list_tables` (main.py:262): a string pattern
containing `%` or `_` is used verbatim, otherwise it is wrapped as
`%pattern%`. (Truthy non-string patterns — lists, dicts — are not modelled;
no claim depends on them.) -/
def wildcardWrap : JValue → Except String JValue
  | .str s =>
      .ok (.str (if s.data.contains '%' || s.data.contains '_' then s else "%" ++ s ++ "%"))
  | _ => .error "TypeError: argument of type is not iterable"

/-- Model of `list_tables` (main.py:239-278), up to execution. -/
def list_tables (jsonLoads : String → Except String JValue) (content : JValue) :
    Except String (Composed × List JValue) := do
  let data ← _parse jsonLoads content
  let schema ← pyGet data "schema"
  let include_views := truthy (← pyGetD data "include_views" (.bool false))
  let pattern ← pyGet data "pattern"
  let limit ← pyGetD data "limit" (.int 200)
  let ws0 : List Composed := [[SqlTok.raw "1=1"]]
  let ws1 := if include_views then ws0 else ws0 ++ [[SqlTok.raw "table_type = \x27BASE TABLE\x27"]]
  let (ws2, ps2) :=
    if truthy schema then (ws1 ++ [[SqlTok.raw "table_schema = ", SqlTok.placeholder]], [schema])
    else (ws1, ([] : List JValue))
  let (ws3, ps3) ←
    if truthy pattern = false then pure (ws2, ps2)
    else do
      let pat ← wildcardWrap pattern
      pure (ws2 ++ [[SqlTok.raw "table_name ILIKE ", SqlTok.placeholder]], ps2 ++ [pat])
  let query :=
    [SqlTok.raw "SELECT table_schema, table_name, table_type FROM information_schema.tables WHERE "] ++
      sqlJoin [.raw " AND "] ws3 ++ [SqlTok.raw " ORDER BY table_schema, table_name"]
  let query := if limitApplies limit then query ++ [SqlTok.raw " LIMIT ", .lit limit] else query
  .ok (query, ps3)

/-! ## The tool dispatcher (main.py:405-456, tool-call branch)

`handle_user_message`'s language-model round trips are external; the core
modelled here is the dispatch block: exact-name lookup, invocation of the
builder plus cursor execution, and the `try/except` that converts any raised
exception into a `{ok: false, error: ...}` envelope. Cursor execution
(`db_cursor`/`cursor.execute`/`rows_as_dicts`) is the parameter `dbExec`,
which may itself fail (a database error). -/

/-- The `tool_result` dict: `{ok, message?, error?, data?}`. -/
structure ToolResult where
  ok : Bool
  message : Option String
  error : Option String
  data : Option JValue

/-- Builder `create_sql_table` followed by execution (main.py:115-117). -/
def runCreate (dbExec : Composed → List JValue → Except String (List JValue))
    (jsonLoads : String → Except String JValue) (content : JValue) : Except String String := do
  let (q, msg) ← create_sql_table jsonLoads content
  let _ ← dbExec q []
  pure msg

/-- Builder `drop_sql_table` followed by execution (main.py:137-139). -/
def runDrop (dbExec : Composed → List JValue → Except String (List JValue))
    (jsonLoads : String → Except String JValue) (content : JValue) : Except String String := do
  let (q, msg) ← drop_sql_table jsonLoads content
  let _ ← dbExec q []
  pure msg

/-- Builder `insert_sql_entry` followed by execution; result `{inserted, rows}`. -/
def runInsert (dbExec : Composed → List JValue → Except String (List JValue))
    (jsonLoads : String → Except String JValue) (content : JValue) : Except String JValue := do
  let (q, ps) ← insert_sql_entry jsonLoads content
  let rows ← dbExec q ps
  pure (.obj [("inserted", .int rows.length), ("rows", .arr rows)])

/-- Builder `read_sql_entry` followed by execution; result `{count, rows}`. -/
def runRead (dbExec : Composed → List JValue → Except String (List JValue))
    (jsonLoads : String → Except String JValue) (content : JValue) : Except String JValue := do
  let (q, ps) ← read_sql_entry jsonLoads content
  let rows ← dbExec q ps
  pure (.obj [("count", .int rows.length), ("rows", .arr rows)])

/-- Builder `delete_sql_entry` followed by execution; result `{deleted, rows}`. -/
def runDelete (dbExec : Composed → List JValue → Except String (List JValue))
    (jsonLoads : String → Except String JValue) (content : JValue) : Except String JValue := do
  let (q, ps) ← delete_sql_entry jsonLoads content
  let rows ← dbExec q ps
  pure (.obj [("deleted", .int rows.length), ("rows", .arr rows)])

/-- Builder `update_sql_entry` followed by execution; result `{updated, rows}`. -/
def runUpdate (dbExec : Composed → List JValue → Except String (List JValue))
    (jsonLoads : String → Except String JValue) (content : JValue) : Except String JValue := do
  let (q, ps) ← update_sql_entry jsonLoads content
  let rows ← dbExec q ps
  pure (.obj [("updated", .int rows.length), ("rows", .arr rows)])

/-- Builder `list_tables` followed by execution; result `{count, tables}`. -/
def runListTables (dbExec : Composed → List JValue → Except String (List JValue))
    (jsonLoads : String → Except String JValue) (content : JValue) : Except String JValue := do
  let (q, ps) ← list_tables jsonLoads content
  let rows ← dbExec q ps
  pure (.obj [("count", .int rows.length), ("tables", .arr rows)])

/-- The seven operation names the dispatcher recognises (main.py:420-440). -/
def opNames : List String :=
  ["create_sql_table", "drop_sql_table", "insert_sql_entry", "read_sql_entry",
   "delete_sql_entry", "update_sql_entry", "list_tables"]

/-- The dispatch block of `handle_user_message` (main.py:419-444): exact
name match selects the builder; the surrounding `try/except Exception`
converts any raised error into `{ok: false, error: str(exc)}`; an unknown
name yields `{ok: false, error: "Bilinmeyen tool: <name>"}` (the code's
unknown-operation message). -/
def handle_tool_call (dbExec : Composed → List JValue → Except String (List JValue))
    (jsonLoads : String → Except String JValue) (name : String) (content : JValue) :
    ToolResult :=
  if name = "create_sql_table" then
    match runCreate dbExec jsonLoads content with
    | .ok msg => ⟨true, some ("Tablo oluşturma sonucu: " ++ msg), none, none⟩
    | .error e => ⟨false, none, some e, none⟩
  else if name = "drop_sql_table" then
    match runDrop dbExec jsonLoads content with
    | .ok msg => ⟨true, some msg, none, none⟩
    | .error e => ⟨false, none, some e, none⟩
  else if name = "insert_sql_entry" then
    match runInsert dbExec jsonLoads content with
    | .ok v => ⟨true, some "Oluşturuldu", none, some v⟩
    | .error e => ⟨false, none, some e, none⟩
  else if name = "read_sql_entry" then
    match runRead dbExec jsonLoads content with
    | .ok v => ⟨true, some "Bilgiler", none, some v⟩
    | .error e => ⟨false, none, some e, none⟩
  else if name = "delete_sql_entry" then
    match runDelete dbExec jsonLoads content with
    | .ok v => ⟨true, some "Silindi", none, some v⟩
    | .error e => ⟨false, none, some e, none⟩
  else if name = "update_sql_entry" then
    match runUpdate dbExec jsonLoads content with
    | .ok v => ⟨true, some "Güncellendi", none, some v⟩
    | .error e => ⟨false, none, some e, none⟩
  else if name = "list_tables" then
    match runListTables dbExec jsonLoads content with
    | .ok v => ⟨true, some "Tablolar", none, some v⟩
    | .error e => ⟨false, none, some e, none⟩
  else ⟨false, none, some ("Bilinmeyen tool: " ++ name), none⟩

/-! ## Spec-side definitions

Used to compare the code's predicate builder against the spec's words; the
clause texts below are transcribed from §4.3 of the specification, with `?`
read as the driver's positional placeholder (rendered `%s`). -/

/-- Join a list of strings with a separator. -/
def joinSep (sep : String) : List String → String
  | [] => ""
  | [s] => s
  | s :: s' :: ss => s ++ sep ++ joinSep sep (s' :: ss)

/-- Modelled from the spec (§4.3): the clause text and parameters one
predicate-map entry should contribute: null → `col IS NULL` (no parameter);
empty list → a deterministically-false clause (no parameter); non-empty list
→ `col IN (?, ?, …)` with one placeholder per element and the elements as
parameters; otherwise `col = ?` with the value as parameter. -/
def specClause (col : String) : JValue → String × List JValue
  | .null => (quoteIdent col ++ " IS NULL", [])
  | .arr vs =>
      if vs.isEmpty then ("FALSE", [])
      else
        (quoteIdent col ++ " IN (" ++ joinSep ", " (List.replicate vs.length "%s") ++ ")",
         vs)
  | v => (quoteIdent col ++ " = %s", [v])

/-- Modelled from the spec (§4.3): clauses joined with `AND`, prefixed with
`WHERE` only when at least one clause exists. -/
def specWhereText (entries : List (String × JValue)) : String :=
  if entries.isEmpty then ""
  else " WHERE " ++ joinSep " AND " (entries.map fun p => (specClause p.1 p.2).1)

/-- Modelled from the spec (§4.3): the parameters contributed by the
entries, concatenated positionally. -/
def specWhereParams (entries : List (String × JValue)) : List JValue :=
  (entries.map fun p => (specClause p.1 p.2).2).flatten

/-- Did the computation raise (return an error)? -/
def isErr {α : Type} : Except String α → Bool
  | .error _ => true
  | .ok _ => false

/-- Content that the claim calls invalid: empty (`None` or `""`),
unparseable as JSON, or not denoting a JSON object (a string parsing to a
non-object, a pre-parsed list, or a non-container value that `json.loads`
cannot take). -/
def contentRejected (jsonLoads : String → Except String JValue) : JValue → Bool
  | .null => true
  | .str s =>
      if s.isEmpty then true
      else
        match jsonLoads s with
        | .error _ => true
        | .ok (.obj _) => false
        | .ok _ => true
  | .obj _ => false
  | .arr _ => true
  | .bool _ => true
  | .int _ => true

/-! ## Concrete stand-ins for the external dependencies, used in witnesses -/

/-- A `json.loads` stand-in that fails on every string (witness inputs are
pre-parsed objects, so it is never consulted). -/
def jlStub : String → Except String JValue := fun _ => .error "json.loads not modelled"

/-- A database stand-in that returns no rows and never fails. -/
def exStub : Composed → List JValue → Except String (List JValue) := fun _ _ => .ok []

/-- A database stand-in that always fails (a database-level error). -/
def exFail : Composed → List JValue → Except String (List JValue) :=
  fun _ _ => .error "psycopg2.Error"

/-! ## Helper lemmas -/

theorem render_append (a b : Composed) : render (a ++ b) = render a ++ render b := by
  induction a with
  | nil => simp [render]
  | cons t ts ih => simp [render, ih, String.append_assoc]

theorem countPh_append (a b : Composed) : countPh (a ++ b) = countPh a + countPh b := by
  simp [countPh, List.countP_append]

theorem countPh_sqlJoin (sep : Composed) (hsep : countPh sep = 0) :
    ∀ cs : List Composed, countPh (sqlJoin sep cs) = (cs.map countPh).sum
  | [] => by simp [sqlJoin, countPh]
  | [c] => by simp [sqlJoin]
  | c :: c' :: cs => by
      have ih := countPh_sqlJoin sep hsep (c' :: cs)
      simp [sqlJoin, countPh_append, hsep] at *
      omega

theorem noLit_append (a b : Composed) : noLit (a ++ b) = (noLit a && noLit b) := by
  simp [noLit, List.all_append]

theorem noLit_sqlJoin (sep : Composed) (hsep : noLit sep = true) :
    ∀ cs : List Composed, (∀ c ∈ cs, noLit c = true) → noLit (sqlJoin sep cs) = true
  | [], _ => rfl
  | [c], h => h c (by simp)
  | c :: c' :: cs, h => by
      have h2 : ∀ x ∈ c' :: cs, noLit x = true := by
        intro x hx
        exact h x (List.mem_cons_of_mem c hx)
      have ih := noLit_sqlJoin sep hsep (c' :: cs) h2
      have h1 := h c (List.mem_cons_self c (c' :: cs))
      simp [sqlJoin, noLit_append, hsep, h1, ih]

theorem countPh_whereClause (col : String) (v : JValue) :
    countPh (whereClause col v).1 = (whereClause col v).2.length := by
  cases v with
  | null => rfl
  | arr vs =>
      cases vs with
      | nil => rfl
      | cons v' vs' =>
          have hjoin : countPh (sqlJoin [SqlTok.raw ", "]
              ((v' :: vs').map fun _ => [SqlTok.placeholder])) = (v' :: vs').length := by
            rw [countPh_sqlJoin [SqlTok.raw ", "] rfl, List.map_map]
            have hc : (countPh ∘ fun _ => [SqlTok.placeholder]) = fun (_ : JValue) => 1 := rfl
            rw [hc]
            simp only [List.map_const', List.sum_replicate, smul_eq_mul, mul_one]
          show countPh (([SqlTok.ident col, SqlTok.raw " IN ("] ++
              sqlJoin [SqlTok.raw ", "] ((v' :: vs').map fun _ => [SqlTok.placeholder])) ++
              [SqlTok.raw ")"]) = (v' :: vs').length
          have h1 : countPh [SqlTok.ident col, SqlTok.raw " IN ("] = 0 := rfl
          have h2 : countPh [SqlTok.raw ")"] = 0 := rfl
          rw [countPh_append, countPh_append, h1, hjoin, h2]
          omega
  | bool b => rfl
  | int n => rfl
  | str s => rfl
  | obj fs => rfl

theorem noLit_whereClause (col : String) (v : JValue) :
    noLit (whereClause col v).1 = true := by
  cases v with
  | null => rfl
  | arr vs =>
      cases vs with
      | nil => rfl
      | cons v' vs' =>
          simp only [whereClause, List.isEmpty_cons, Bool.false_eq_true, if_false,
            noLit_append, Bool.and_eq_true]
          refine ⟨⟨rfl, ?_⟩, rfl⟩
          exact noLit_sqlJoin [SqlTok.raw ", "] rfl _
            (by
              intro c hc
              rw [List.mem_map] at hc
              obtain ⟨x, hmem, hx⟩ := hc
              subst hx
              rfl)
  | bool b => rfl
  | int n => rfl
  | str s => rfl
  | obj fs => rfl

theorem whereClause_fst_shape (col : String) (v : JValue) :
    (whereClause col v).1 = shapeClause col (shapeOf v) := by
  cases v with
  | null => rfl
  | arr vs =>
      cases vs with
      | nil => rfl
      | cons v' vs' =>
          simp [whereClause, shapeOf, shapeClause, List.map_const', List.replicate_succ]
  | bool b => rfl
  | int n => rfl
  | str s => rfl
  | obj fs => rfl

theorem buildWhereEntries_count :
    ∀ l cs ps, buildWhereEntries l = .ok (cs, ps) → (cs.map countPh).sum = ps.length := by
  intro l
  induction l with
  | nil =>
      intro cs ps h
      simp [buildWhereEntries] at h
      obtain ⟨h1, h2⟩ := h
      subst h1; subst h2
      simp
  | cons kv rest ih =>
      intro cs ps h
      obtain ⟨k, v⟩ := kv
      simp only [buildWhereEntries, bind, Except.bind] at h
      cases hid : _ident (.str k) with
      | error e => rw [hid] at h; simp at h
      | ok col =>
          rw [hid] at h
          cases hrest : buildWhereEntries rest with
          | error e => rw [hrest] at h; simp at h
          | ok pr =>
              rw [hrest] at h
              obtain ⟨cs', ps'⟩ := pr
              simp at h
              obtain ⟨h1, h2⟩ := h
              subst h1; subst h2
              simp [countPh_whereClause col v, ih cs' ps' hrest]

theorem buildWhereEntries_noLit :
    ∀ l cs ps, buildWhereEntries l = .ok (cs, ps) → ∀ c ∈ cs, noLit c = true := by
  intro l
  induction l with
  | nil =>
      intro cs ps h
      simp [buildWhereEntries] at h
      obtain ⟨h1, _⟩ := h
      subst h1
      simp
  | cons kv rest ih =>
      intro cs ps h
      obtain ⟨k, v⟩ := kv
      simp only [buildWhereEntries, bind, Except.bind] at h
      cases hid : _ident (.str k) with
      | error e => rw [hid] at h; simp at h
      | ok col =>
          rw [hid] at h
          cases hrest : buildWhereEntries rest with
          | error e => rw [hrest] at h; simp at h
          | ok pr =>
              rw [hrest] at h
              obtain ⟨cs', ps'⟩ := pr
              simp at h
              obtain ⟨h1, _⟩ := h
              subst h1
              intro c hc
              simp at hc
              rcases hc with hc | hc
              · subst hc; exact noLit_whereClause col v
              · exact ih cs' ps' hrest c hc

theorem buildWhereEntries_fst_shape :
    ∀ l, (buildWhereEntries l).map Prod.fst =
      buildWhereShapes (l.map fun p => (p.1, shapeOf p.2)) := by
  intro l
  induction l with
  | nil => rfl
  | cons kv rest ih =>
      obtain ⟨k, v⟩ := kv
      simp only [buildWhereEntries, buildWhereShapes, List.map_cons, bind, Except.bind]
      cases hid : _ident (.str k) with
      | error e => simp [Except.map]
      | ok col =>
          cases hrest : buildWhereEntries rest with
          | error e =>
              rw [hrest] at ih
              simp only [Except.map] at ih
              rw [← ih]
              simp [Except.map]
          | ok pr =>
              obtain ⟨cs', ps'⟩ := pr
              rw [hrest] at ih
              simp only [Except.map] at ih
              rw [← ih]
              simp [Except.map, whereClause_fst_shape]

theorem build_where_fst_shape (l : List (String × JValue)) :
    (_build_where_simple (.obj l)).map Prod.fst =
      whereFragFromShapes (l.map fun p => (p.1, shapeOf p.2)) := by
  by_cases hl : l.isEmpty
  · have : l = [] := by cases l <;> simp_all
    subst this
    rfl
  · simp only [_build_where_simple, whereFragFromShapes, truthy]
    rw [if_neg (by simp_all), if_neg (by simp_all)]
    simp only [bind, Except.bind]
    have hsh := buildWhereEntries_fst_shape l
    cases hrest : buildWhereEntries l with
    | error e =>
        rw [hrest] at hsh
        simp only [Except.map] at hsh
        rw [← hsh]
        simp [Except.map]
    | ok pr =>
        obtain ⟨cs, ps⟩ := pr
        rw [hrest] at hsh
        simp only [Except.map] at hsh
        rw [← hsh]
        by_cases hcs : cs.isEmpty
        · simp [hcs, Except.map]
        · simp [hcs, Except.map]

/-! ## Claims C10 and C1 -/

/-- C10: for every predicate map accepted by `_build_where_simple`, the
number of placeholders in the returned WHERE fragment equals the length of
the returned parameter list; per entry, a null contributes zero of each, a
list of length n contributes exactly n of each (an empty list zero), and a
scalar exactly one of each. -/
theorem c10_placeholder_count_matches_params :
    (∀ (l : List (String × JValue)) (frag : Composed) (ps : List JValue),
       _build_where_simple (.obj l) = .ok (frag, ps) → countPh frag = ps.length) ∧
    (∀ col, countPh (whereClause col .null).1 = 0 ∧ (whereClause col .null).2.length = 0) ∧
    (∀ col vs, countPh (whereClause col (.arr vs)).1 = vs.length ∧
       (whereClause col (.arr vs)).2.length = vs.length) ∧
    (∀ col v, shapeOf v = .scalarSh →
       countPh (whereClause col v).1 = 1 ∧ (whereClause col v).2.length = 1) := by
  refine ⟨?_, ?_, ?_, ?_⟩
  · intro l frag ps h
    simp only [_build_where_simple] at h
    by_cases hl : truthy (.obj l) = false
    · rw [if_pos hl] at h
      simp at h
      obtain ⟨h1, h2⟩ := h
      subst h1; subst h2
      rfl
    · rw [if_neg hl] at h
      simp only [bind, Except.bind] at h
      cases hrest : buildWhereEntries l with
      | error e => rw [hrest] at h; simp at h
      | ok pr =>
          obtain ⟨cs, ps'⟩ := pr
          rw [hrest] at h
          by_cases hcs : cs.isEmpty
          · simp [hcs] at h
            obtain ⟨h1, h2⟩ := h
            subst h1; subst h2
            rfl
          · simp [hcs] at h
            obtain ⟨h1, h2⟩ := h
            subst h1; subst h2
            show countPh ([SqlTok.raw " WHERE "] ++ sqlJoin [SqlTok.raw " AND "] cs) = ps'.length
            have h0 : countPh [SqlTok.raw " WHERE "] = 0 := rfl
            rw [countPh_append, h0, Nat.zero_add, countPh_sqlJoin [SqlTok.raw " AND "] rfl cs]
            exact buildWhereEntries_count l cs ps' hrest
  · intro col; exact ⟨rfl, rfl⟩
  · intro col vs
    cases vs with
    | nil => exact ⟨rfl, rfl⟩
    | cons v' vs' =>
        refine ⟨?_, by simp [whereClause]⟩
        have h := countPh_whereClause col (.arr (v' :: vs'))
        rw [h]
        simp [whereClause]
  · intro col v hv
    cases v <;> simp [shapeOf] at hv <;> exact ⟨rfl, rfl⟩

/-- Witness for C10 at a concrete predicate map
`{a: [1, 2], b: null, c: "x"}`: three placeholders, three parameters. -/
theorem c10_placeholder_count_matches_params_witness :
    _build_where_simple (.obj [("a", .arr [.int 1, .int 2]), ("b", .null), ("c", .str "x")]) =
      .ok ([.raw " WHERE ", .ident "a", .raw " IN (", .placeholder, .raw ", ", .placeholder,
            .raw ")", .raw " AND ", .ident "b", .raw " IS NULL", .raw " AND ", .ident "c",
            .raw " = ", .placeholder],
           [.int 1, .int 2, .str "x"]) ∧
    countPh [SqlTok.raw " WHERE ", .ident "a", .raw " IN (", .placeholder, .raw ", ",
             .placeholder, .raw ")", .raw " AND ", .ident "b", .raw " IS NULL", .raw " AND ",
             .ident "c", .raw " = ", .placeholder] =
      ([JValue.int 1, .int 2, .str "x"] : List JValue).length :=
  ⟨rfl, c10_placeholder_count_matches_params.1
    [("a", .arr [.int 1, .int 2]), ("b", .null), ("c", .str "x")]
    [.raw " WHERE ", .ident "a", .raw " IN (", .placeholder, .raw ", ", .placeholder,
     .raw ")", .raw " AND ", .ident "b", .raw " IS NULL", .raw " AND ", .ident "c",
     .raw " = ", .placeholder]
    [.int 1, .int 2, .str "x"] rfl⟩

/-- C1: the SQL text of the WHERE fragment returned by `_build_where_simple`
is determined solely by the keys and the value shapes of the predicate map
(null / list of a given length / scalar) — two maps with equal keys and
shapes give the identical fragment, hence character-for-character identical
SQL — and the fragment contains no `sql.Literal` token, so all values travel
only through the positional parameter list. -/
theorem c1_where_fragment_shape_determined :
    (∀ l1 l2 : List (String × JValue),
       l1.map (fun p => (p.1, shapeOf p.2)) = l2.map (fun p => (p.1, shapeOf p.2)) →
       (_build_where_simple (.obj l1)).map Prod.fst =
         (_build_where_simple (.obj l2)).map Prod.fst ∧
       (_build_where_simple (.obj l1)).map (fun r => render r.1) =
         (_build_where_simple (.obj l2)).map (fun r => render r.1)) ∧
    (∀ (l : List (String × JValue)) (frag : Composed) (ps : List JValue),
       _build_where_simple (.obj l) = .ok (frag, ps) → noLit frag = true) := by
  constructor
  · intro l1 l2 hsh
    have h1 := build_where_fst_shape l1
    have h2 := build_where_fst_shape l2
    rw [hsh] at h1
    have hfst : (_build_where_simple (.obj l1)).map Prod.fst =
        (_build_where_simple (.obj l2)).map Prod.fst := by rw [h1, h2]
    refine ⟨hfst, ?_⟩
    have : ∀ w : JValue, (_build_where_simple w).map (fun r => render r.1) =
        ((_build_where_simple w).map Prod.fst).map render := by
      intro w
      cases _build_where_simple w <;> simp [Except.map]
    rw [this (.obj l1), this (.obj l2), hfst]
  · intro l frag ps h
    simp only [_build_where_simple] at h
    by_cases hl : truthy (.obj l) = false
    · rw [if_pos hl] at h
      simp at h
      obtain ⟨h1, _⟩ := h
      subst h1
      rfl
    · rw [if_neg hl] at h
      simp only [bind, Except.bind] at h
      cases hrest : buildWhereEntries l with
      | error e => rw [hrest] at h; simp at h
      | ok pr =>
          obtain ⟨cs, ps'⟩ := pr
          rw [hrest] at h
          by_cases hcs : cs.isEmpty
          · simp [hcs] at h
            obtain ⟨h1, _⟩ := h
            subst h1
            rfl
          · simp [hcs] at h
            obtain ⟨h1, _⟩ := h
            subst h1
            have hall := buildWhereEntries_noLit l cs ps' hrest
            have hjoin := noLit_sqlJoin [SqlTok.raw " AND "] rfl cs hall
            show noLit ([SqlTok.raw " WHERE "] ++ sqlJoin [SqlTok.raw " AND "] cs) = true
            rw [noLit_append, hjoin]
            rfl

/-- Witness for C1: `{a: "x", b: [1, 2]}` and `{a: 7, b: ["p", "q"]}` have
the same keys and shapes, and produce the identical WHERE fragment. -/
theorem c1_where_fragment_shape_determined_witness :
    ([("a", JValue.str "x"), ("b", .arr [.int 1, .int 2])].map
        (fun p => (p.1, shapeOf p.2)) =
      [("a", JValue.int 7), ("b", .arr [.str "p", .str "q"])].map
        (fun p => (p.1, shapeOf p.2))) ∧
    (_build_where_simple (.obj [("a", .str "x"), ("b", .arr [.int 1, .int 2])])).map Prod.fst =
      (_build_where_simple (.obj [("a", .int 7), ("b", .arr [.str "p", .str "q"])])).map Prod.fst :=
  ⟨rfl,
   (c1_where_fragment_shape_determined.1
     [("a", .str "x"), ("b", .arr [.int 1, .int 2])]
     [("a", .int 7), ("b", .arr [.str "p", .str "q"])] rfl).1⟩

/-! ## Claim C5 -/

theorem render_sqlJoin (sep : Composed) :
    ∀ cs, render (sqlJoin sep cs) = joinSep (render sep) (cs.map render)
  | [] => rfl
  | [c] => rfl
  | c :: c' :: cs => by
      have ih := render_sqlJoin sep (c' :: cs)
      show render ((c ++ sep) ++ sqlJoin sep (c' :: cs)) =
        (render c ++ render sep) ++ joinSep (render sep) ((c' :: cs).map render)
      rw [render_append, render_append, ih]

theorem whereClause_spec (col : String) (v : JValue) :
    render (whereClause col v).1 = (specClause col v).1 ∧
      (whereClause col v).2 = (specClause col v).2 := by
  cases v with
  | null => exact ⟨rfl, rfl⟩
  | arr vs =>
      cases vs with
      | nil => exact ⟨rfl, rfl⟩
      | cons v' vs' =>
          constructor
          · show render (([SqlTok.ident col, SqlTok.raw " IN ("] ++
                sqlJoin [SqlTok.raw ", "] ((v' :: vs').map fun _ => [SqlTok.placeholder])) ++
                [SqlTok.raw ")"]) = _
            rw [render_append, render_append, render_sqlJoin, List.map_map]
            have hc : (render ∘ fun _ => [SqlTok.placeholder]) = fun (_ : JValue) => "%s" := rfl
            rw [hc, List.map_const']
            rfl
          · rfl
  | bool b => exact ⟨rfl, rfl⟩
  | int n => exact ⟨rfl, rfl⟩
  | str s => exact ⟨rfl, rfl⟩
  | obj fs => exact ⟨rfl, rfl⟩

theorem buildWhereEntries_spec :
    ∀ entries : List (String × JValue),
      (∀ kv ∈ entries, pyMatchIdent kv.1 = true) →
      ∃ cs, buildWhereEntries entries = .ok (cs, specWhereParams entries) ∧
        cs.map render = entries.map (fun p => (specClause p.1 p.2).1) := by
  intro entries
  induction entries with
  | nil => intro _; exact ⟨[], rfl, rfl⟩
  | cons kv rest ih =>
      intro h
      obtain ⟨k, v⟩ := kv
      have hk : pyMatchIdent k = true := h (k, v) (List.mem_cons_self _ _)
      have hrest : ∀ kv ∈ rest, pyMatchIdent kv.1 = true :=
        fun kv hkv => h kv (List.mem_cons_of_mem _ hkv)
      obtain ⟨cs', h1, h2⟩ := ih hrest
      refine ⟨(whereClause k v).1 :: cs', ?_, ?_⟩
      · simp only [buildWhereEntries, bind, Except.bind, _ident, hk, if_pos, h1]
        have hp : (whereClause k v).2 = (specClause k v).2 := (whereClause_spec k v).2
        simp [specWhereParams, hp]
      · simp only [List.map_cons, h2, (whereClause_spec k v).1]

/-- C5: `_build_where_simple` realizes the spec's predicate-builder
algorithm — for every predicate map with valid keys it succeeds, its
fragment renders exactly to the spec's clause texts (null → `IS NULL`,
empty list → `FALSE`, non-empty list → `IN` with one placeholder per
element, scalar → `= ?`, joined by `AND`, prefixed by `WHERE` only when a
clause exists), and its parameters are the spec's positional parameters. -/
theorem c5_where_refines_spec :
    ∀ entries : List (String × JValue),
      (∀ kv ∈ entries, pyMatchIdent kv.1 = true) →
      ∃ frag ps, _build_where_simple (.obj entries) = .ok (frag, ps) ∧
        render frag = specWhereText entries ∧ ps = specWhereParams entries := by
  intro entries h
  cases entries with
  | nil => exact ⟨[], [], rfl, rfl, rfl⟩
  | cons kv rest =>
      obtain ⟨cs, h1, h2⟩ := buildWhereEntries_spec (kv :: rest) h
      have hne : cs.isEmpty = false := by
        have : cs.length = (kv :: rest).length := by
          rw [← List.length_map cs render, h2, List.length_map]
        cases cs with
        | nil => simp at this
        | cons a l => rfl
      refine ⟨.raw " WHERE " :: sqlJoin [.raw " AND "] cs, specWhereParams (kv :: rest), ?_, ?_, rfl⟩
      · simp only [_build_where_simple, truthy, List.isEmpty_cons, bind, Except.bind, h1,
          Bool.not_false, hne]
        rfl
      · show " WHERE " ++ render (sqlJoin [SqlTok.raw " AND "] cs) = specWhereText (kv :: rest)
        rw [render_sqlJoin, h2]
        rfl

/-- Witness for C5 at the spec's own examples:
`{a: null}`, `{a: [1,2]}`, `{a: []}` combined into one map with valid keys. -/
theorem c5_where_refines_spec_witness :
    (∀ kv ∈ [("a", JValue.null), ("b", .arr [.int 1, .int 2]), ("c", .arr [])],
       pyMatchIdent kv.1 = true) ∧
    (∃ frag ps,
       _build_where_simple (.obj [("a", .null), ("b", .arr [.int 1, .int 2]), ("c", .arr [])]) =
         .ok (frag, ps) ∧
       render frag = specWhereText [("a", .null), ("b", .arr [.int 1, .int 2]), ("c", .arr [])] ∧
       ps = specWhereParams [("a", .null), ("b", .arr [.int 1, .int 2]), ("c", .arr [])]) :=
  ⟨by decide, c5_where_refines_spec _ (by decide)⟩

/-! ## Claim C3 -/

/-- C3 counterexample: the claim says the Identifier Validator fails for
every string not matching `^[A-Za-z_][A-Za-z0-9_]*$`, but Python's
`re.match` lets `$` also match just before a trailing newline, so `"a\n"`
is accepted unchanged even though it is not in the regex's language. -/
theorem c3_ident_trailing_newline_accepted :
    _ident (.str "a\n") = .ok "a\n" ∧ matchesIdentRegex "a\n" = false :=
  ⟨rfl, rfl⟩

/-- C3 (amended): the Identifier Validator fails exactly when the input is
not a string matching `^[A-Za-z_][A-Za-z0-9_]*$` under Python `re.match`
semantics, where `$` also accepts one trailing newline after a matching
string; accepted strings are returned unchanged. -/
theorem c3_ident_validator_exact :
    (∀ s : String, matchesIdentRegex s = true → _ident (.str s) = .ok s) ∧
    (∀ s : String, pyMatchIdent s = true → _ident (.str s) = .ok s) ∧
    (∀ s : String, pyMatchIdent s = false → isErr (_ident (.str s)) = true) ∧
    (∀ v : JValue, (∀ s, v ≠ .str s) → isErr (_ident v) = true) := by
  refine ⟨?_, ?_, ?_, ?_⟩
  · intro s h
    simp [_ident, pyMatchIdent, h]
  · intro s h
    simp [_ident, h]
  · intro s h
    simp [_ident, h, isErr]
  · intro v h
    cases v with
    | str s => exact absurd rfl (h s)
    | null => rfl
    | bool b => rfl
    | int n => rfl
    | arr l => rfl
    | obj l => rfl

/-- Witness for C3 (amended): `"abc_9"` matches and is returned unchanged;
`"9abc"` does not match and the validator raises. -/
theorem c3_ident_validator_exact_witness :
    (matchesIdentRegex "abc_9" = true ∧ _ident (.str "abc_9") = .ok "abc_9") ∧
    (pyMatchIdent "9abc" = false ∧ isErr (_ident (.str "9abc")) = true) :=
  ⟨⟨by decide, c3_ident_validator_exact.1 "abc_9" (by decide)⟩,
   ⟨by decide, c3_ident_validator_exact.2.2.1 "9abc" (by decide)⟩⟩

/-! ## Claim C4 -/

/-- C4: the delete and update builders raise before composing any statement
whenever the parsed content's `where` field is falsy (absent, `{}`, or any
other falsy value); update additionally raises when `set` is absent or the
empty dict. -/
theorem c4_delete_update_require_where :
    (∀ (jl : String → Except String JValue) (content : JValue),
       (∀ data, _parse jl content = .ok data →
          ∀ wv, pyGet data "where" = .ok wv → truthy wv = false) →
       isErr (delete_sql_entry jl content) = true) ∧
    (∀ (jl : String → Except String JValue) (content : JValue),
       (∀ data, _parse jl content = .ok data →
          ∀ wv, pyGet data "where" = .ok wv → truthy wv = false) →
       isErr (update_sql_entry jl content) = true) ∧
    (∀ (jl : String → Except String JValue) (content : JValue),
       (∀ data, _parse jl content = .ok data →
          ∀ sv, pyGet data "set" = .ok sv → sv = .null ∨ sv = .obj []) →
       isErr (update_sql_entry jl content) = true) := by
  refine ⟨?_, ?_, ?_⟩
  · intro jl content h
    cases hp : _parse jl content with
    | error e => simp [delete_sql_entry, bind, Except.bind, hp, isErr]
    | ok data =>
        cases ht : pyIndexStr data "table" with
        | error e => simp [delete_sql_entry, bind, Except.bind, hp, ht, isErr]
        | ok table =>
            cases hw : pyGet data "where" with
            | error e => simp [delete_sql_entry, bind, Except.bind, hp, ht, hw, isErr]
            | ok wv =>
                have hwf := h data hp wv hw
                simp [delete_sql_entry, bind, Except.bind, hp, ht, hw, hwf, isErr]
  · intro jl content h
    cases hp : _parse jl content with
    | error e => simp [update_sql_entry, bind, Except.bind, hp, isErr]
    | ok data =>
        cases ht : pyIndexStr data "table" with
        | error e => simp [update_sql_entry, bind, Except.bind, hp, ht, isErr]
        | ok table =>
            cases hs : pyGet data "set" with
            | error e => simp [update_sql_entry, bind, Except.bind, hp, ht, hs, isErr]
            | ok sv =>
                cases hw : pyGet data "where" with
                | error e => simp [update_sql_entry, bind, Except.bind, hp, ht, hs, hw, isErr]
                | ok wv =>
                    have hwf := h data hp wv hw
                    cases sv with
                    | obj sets =>
                        cases hse : sets.isEmpty with
                        | true =>
                            simp [update_sql_entry, bind, Except.bind, hp, ht, hs, hw, hse, isErr]
                        | false =>
                            simp [update_sql_entry, bind, Except.bind, hp, ht, hs, hw, hse,
                              hwf, isErr]
                    | null => simp [update_sql_entry, bind, Except.bind, hp, ht, hs, hw, isErr]
                    | bool b => simp [update_sql_entry, bind, Except.bind, hp, ht, hs, hw, isErr]
                    | int n => simp [update_sql_entry, bind, Except.bind, hp, ht, hs, hw, isErr]
                    | str s => simp [update_sql_entry, bind, Except.bind, hp, ht, hs, hw, isErr]
                    | arr l => simp [update_sql_entry, bind, Except.bind, hp, ht, hs, hw, isErr]
  · intro jl content h
    cases hp : _parse jl content with
    | error e => simp [update_sql_entry, bind, Except.bind, hp, isErr]
    | ok data =>
        cases ht : pyIndexStr data "table" with
        | error e => simp [update_sql_entry, bind, Except.bind, hp, ht, isErr]
        | ok table =>
            cases hs : pyGet data "set" with
            | error e => simp [update_sql_entry, bind, Except.bind, hp, ht, hs, isErr]
            | ok sv =>
                cases hw : pyGet data "where" with
                | error e => simp [update_sql_entry, bind, Except.bind, hp, ht, hs, hw, isErr]
                | ok wv =>
                    have hsf := h data hp sv hs
                    rcases hsf with hsf | hsf
                    · subst hsf
                      simp [update_sql_entry, bind, Except.bind, hp, ht, hs, hw, isErr]
                    · subst hsf
                      simp [update_sql_entry, bind, Except.bind, hp, ht, hs, hw, isErr]

/-- Witness for C4: content `{table: "t"}` (where absent) makes delete and
update raise; `{table: "t", where: {id: 1}}` with `set` absent makes update
raise. -/
theorem c4_delete_update_require_where_witness :
    isErr (delete_sql_entry jlStub (.obj [("table", .str "t")])) = true ∧
    isErr (update_sql_entry jlStub (.obj [("table", .str "t")])) = true ∧
    isErr (update_sql_entry jlStub
      (.obj [("table", .str "t"), ("where", .obj [("id", .int 1)])])) = true :=
  ⟨c4_delete_update_require_where.1 jlStub _
     (by
       intro data hd wv hw
       injection hd with h1
       subst h1
       injection hw with h2
       subst h2
       rfl),
   c4_delete_update_require_where.2.1 jlStub _
     (by
       intro data hd wv hw
       injection hd with h1
       subst h1
       injection hw with h2
       subst h2
       rfl),
   c4_delete_update_require_where.2.2 jlStub _
     (by
       intro data hd sv hs
       injection hd with h1
       subst h1
       injection hs with h2
       subst h2
       exact Or.inl rfl)⟩

/-! ## Claim C6 -/

theorem bad_char_all_false (l : List Char) (c : Char) (hc : c ∈ l)
    (hbad : isTypeFragChar c = false) : l.all isTypeFragChar = false := by
  cases hA : l.all isTypeFragChar with
  | false => rfl
  | true =>
      exfalso
      have := List.all_eq_true.mp hA c hc
      rw [hbad] at this
      simp at this

theorem mem_dropLast_of_ne_last :
    ∀ (l : List Char) (c : Char), c ∈ l → l.getLast? = some '\n' → c ≠ '\n' →
      c ∈ l.dropLast
  | [], c, hc, _, _ => by simp at hc
  | [a], c, hc, hl, hne => by
      simp at hc hl
      subst hc
      exact absurd hl hne
  | a :: b :: t, c, hc, hl, hne => by
      have hl' : (b :: t).getLast? = some '\n' := by
        rw [← hl]
        rfl
      rcases List.mem_cons.mp hc with hc | hc
      · subst hc
        show c ∈ c :: (b :: t).dropLast
        exact List.mem_cons_self _ _
      · have := mem_dropLast_of_ne_last (b :: t) c hc hl' hne
        show c ∈ a :: (b :: t).dropLast
        exact List.mem_cons_of_mem a this

theorem pyMatchType_false_of_bad (s : String) (c : Char) (hc : c ∈ s.data)
    (hbad : isTypeFragChar c = false) (hnl : c ≠ '\n') : pyMatchType s = false := by
  have hall := bad_char_all_false s.data c hc hbad
  have h1 : typeRegexLang s = false := by simp [typeRegexLang, hall]
  have h2 : (match s.data.getLast? with
      | some c' => c' = '\n' && typeRegexLang (String.mk s.data.dropLast)
      | none => false) = false := by
    cases hl : s.data.getLast? with
    | none => rfl
    | some c' =>
        by_cases hc' : c' = '\n'
        · subst hc'
          have hmem : c ∈ s.data.dropLast := mem_dropLast_of_ne_last s.data c hc hl hnl
          have hall' : (String.mk s.data.dropLast).data.all isTypeFragChar = false :=
            bad_char_all_false s.data.dropLast c hmem hbad
          simp [typeRegexLang, hall']
        · simp [hc']
  simp only [pyMatchType, h1, h2]
  rfl

theorem dashdash_mem : ∀ l : List Char, containsDashDashL l = true → '-' ∈ l
  | [], h => by simp [containsDashDashL] at h
  | [a], h => by simp [containsDashDashL] at h
  | a :: b :: t, h => by
      simp only [containsDashDashL, Bool.or_eq_true, Bool.and_eq_true, decide_eq_true_eq] at h
      rcases h with ⟨h1, _⟩ | h
      · subst h1; exact List.mem_cons_self _ _
      · exact List.mem_cons_of_mem a (dashdash_mem (b :: t) (by
          simpa [containsDashDashL] using h))

/-- C6: every type fragment containing a semicolon, a single quote, or the
sequence `--` fails the Type Fragment Validator; the allow-list check runs
on the upper-cased string while the generated DDL keeps the original
casing (the `.raw ty` token below), and a fragment failing the upper-cased
check aborts `create_sql_table`. -/
theorem c6_type_fragment_allowlist :
    (∀ ty : String,
       (Char.ofNat 59) ∈ ty.data ∨ (Char.ofNat 39) ∈ ty.data ∨ containsDashDash ty = true →
       typeFragOk (.str ty) = false) ∧
    (∀ (jl : String → Except String JValue) (t c ty : String),
       pyMatchIdent t = true → pyMatchIdent c = true → pyMatchType (pyUpper ty) = true →
       create_sql_table jl (.obj [("table", .str t), ("columns", .obj [(c, .str ty)])]) =
         .ok ([.raw "CREATE TABLE ", .raw "IF NOT EXISTS ", .ident t, .raw " (",
               .ident c, .raw " ", .raw ty, .raw ")"],
              t ++ " tablosu oluşturuldu (ya da zaten vardı).")) ∧
    (∀ (jl : String → Except String JValue) (t c ty : String),
       pyMatchType (pyUpper ty) = false →
       isErr (create_sql_table jl
         (.obj [("table", .str t), ("columns", .obj [(c, .str ty)])])) = true) := by
  refine ⟨?_, ?_, ?_⟩
  · intro ty h
    have hmain : ∀ c0 : Char, c0 ∈ ty.data → isTypeFragChar (Char.toUpper c0) = false →
        Char.toUpper c0 ≠ '\n' → typeFragOk (.str ty) = false := by
      intro c0 hmem hbad hnl
      have hup : Char.toUpper c0 ∈ (pyUpper ty).data := by
        show Char.toUpper c0 ∈ ty.data.map Char.toUpper
        exact List.mem_map_of_mem Char.toUpper hmem
      show pyMatchType (pyUpper ty) = false
      exact pyMatchType_false_of_bad (pyUpper ty) (Char.toUpper c0) hup hbad hnl
    rcases h with h | h | h
    · exact hmain (Char.ofNat 59) h rfl (by decide)
    · exact hmain (Char.ofNat 39) h rfl (by decide)
    · exact hmain '-' (dashdash_mem ty.data h) rfl (by decide)
  · intro jl t c ty ht hc hty
    simp [create_sql_table, _parse, pyIndexStr, pyGetD, bind, Except.bind, List.lookup,
      buildColumnDefs, hty, _ident, hc, ht, truthy, sqlJoin]
  · intro jl t c ty hty
    simp [create_sql_table, _parse, pyIndexStr, pyGetD, bind, Except.bind, List.lookup,
      buildColumnDefs, hty, truthy, isErr]

/-- Witness for C6: `"INT; DROP TABLE x"` is rejected, while the
mixed-case `"Int Primary Key"` passes the upper-cased check and appears
verbatim in the DDL. -/
theorem c6_type_fragment_allowlist_witness :
    ((Char.ofNat 59) ∈ "INT; DROP TABLE x".data ∧
      typeFragOk (.str "INT; DROP TABLE x") = false) ∧
    (pyMatchIdent "person" = true ∧ pyMatchIdent "id" = true ∧
      pyMatchType (pyUpper "Int Primary Key") = true ∧
      create_sql_table jlStub
          (.obj [("table", .str "person"), ("columns", .obj [("id", .str "Int Primary Key")])]) =
        .ok ([.raw "CREATE TABLE ", .raw "IF NOT EXISTS ", .ident "person", .raw " (",
              .ident "id", .raw " ", .raw "Int Primary Key", .raw ")"],
             "person" ++ " tablosu oluşturuldu (ya da zaten vardı).")) :=
  ⟨⟨by decide, c6_type_fragment_allowlist.1 "INT; DROP TABLE x" (Or.inl (by decide))⟩,
   ⟨by decide, by decide, by decide,
    c6_type_fragment_allowlist.2.1 jlStub "person" "id" "Int Primary Key"
      (by decide) (by decide) (by decide)⟩⟩

/-! ## Claim C7 -/

theorem isErr_exists {α : Type} (x : Except String α) (h : isErr x = true) :
    ∃ e, x = .error e := by
  cases x with
  | error e => exact ⟨e, rfl⟩
  | ok v => simp [isErr] at h

theorem parse_of_rejected (jl : String → Except String JValue) (content : JValue)
    (h : contentRejected jl content = true) :
    isErr (_parse jl content) = true ∨ ∃ l, _parse jl content = .ok (.arr l) := by
  cases content with
  | null => exact Or.inl rfl
  | bool b => exact Or.inl rfl
  | int n => exact Or.inl rfl
  | arr l => exact Or.inr ⟨l, rfl⟩
  | obj l => simp [contentRejected] at h
  | str s =>
      by_cases hs : s.isEmpty
      · left; simp [_parse, hs, isErr]
      · cases hj : jl s with
        | error e => left; simp [_parse, hs, hj, isErr]
        | ok v =>
            cases v with
            | obj f => simp [contentRejected, hs, hj] at h
            | null => left; simp [_parse, hs, hj, isErr]
            | bool b => left; simp [_parse, hs, hj, isErr]
            | int n => left; simp [_parse, hs, hj, isErr]
            | str s' => left; simp [_parse, hs, hj, isErr]
            | arr l => left; simp [_parse, hs, hj, isErr]

/-- C7: for every operation, content that is empty, unparseable as JSON, or
not denoting a JSON object makes the builder raise before any statement is
produced; pre-parsed object content is accepted by `_parse` as-is. -/
theorem c7_nonobject_content_rejected :
    (∀ (jl : String → Except String JValue) (content : JValue),
       contentRejected jl content = true →
       isErr (create_sql_table jl content) = true ∧
       isErr (drop_sql_table jl content) = true ∧
       isErr (insert_sql_entry jl content) = true ∧
       isErr (read_sql_entry jl content) = true ∧
       isErr (delete_sql_entry jl content) = true ∧
       isErr (update_sql_entry jl content) = true ∧
       isErr (list_tables jl content) = true) ∧
    (∀ (jl : String → Except String JValue) (fields : List (String × JValue)),
       _parse jl (.obj fields) = .ok (.obj fields)) := by
  constructor
  · intro jl content h
    rcases parse_of_rejected jl content h with hp | ⟨l, hp⟩
    · obtain ⟨e, hpe⟩ := isErr_exists _ hp
      refine ⟨?_, ?_, ?_, ?_, ?_, ?_, ?_⟩ <;>
        simp [create_sql_table, drop_sql_table, insert_sql_entry, read_sql_entry,
          delete_sql_entry, update_sql_entry, list_tables, bind, Except.bind, hpe, isErr]
    · refine ⟨?_, ?_, ?_, ?_, ?_, ?_, ?_⟩ <;>
        simp [create_sql_table, drop_sql_table, insert_sql_entry, read_sql_entry,
          delete_sql_entry, update_sql_entry, list_tables, bind, Except.bind, hp,
          pyIndexStr, pyGetD, pyGet, isErr]
  · intro jl fields
    rfl

/-- Witness for C7: `None` content makes every builder raise. -/
theorem c7_nonobject_content_rejected_witness :
    contentRejected jlStub .null = true ∧
    isErr (create_sql_table jlStub .null) = true ∧
    isErr (list_tables jlStub .null) = true :=
  ⟨rfl, (c7_nonobject_content_rejected.1 jlStub .null rfl).1,
   (c7_nonobject_content_rejected.1 jlStub .null rfl).2.2.2.2.2.2⟩

/-! ## Claim C8 -/

/-- C8: in `list_tables`, a non-empty string pattern is always bound as the
positional `ILIKE` parameter of a query whose SQL text is one fixed constant
(independent of the pattern, hence never interpolated); the bound value is
the pattern itself when it contains a wildcard character (`%` or `_`) and
`%pattern%` otherwise. -/
theorem c8_pattern_wildcard_wrapping :
    ∀ (jl : String → Except String JValue) (p : String), p.isEmpty = false →
      (list_tables jl (.obj [("pattern", .str p)]) =
        .ok ([.raw "SELECT table_schema, table_name, table_type FROM information_schema.tables WHERE ",
              .raw "1=1", .raw " AND ", .raw "table_type = \x27BASE TABLE\x27", .raw " AND ",
              .raw "table_name ILIKE ", .placeholder,
              .raw " ORDER BY table_schema, table_name", .raw " LIMIT ", .lit (.int 200)],
             [.str (if p.data.contains '%' || p.data.contains '_' then p else "%" ++ p ++ "%")])) ∧
      ((p.data.contains '%' || p.data.contains '_') = true →
        (if p.data.contains '%' || p.data.contains '_' then p else "%" ++ p ++ "%") = p) ∧
      ((p.data.contains '%' || p.data.contains '_') = false →
        (if p.data.contains '%' || p.data.contains '_' then p else "%" ++ p ++ "%") = "%" ++ p ++ "%") := by
  intro jl p hp
  refine ⟨?_, ?_, ?_⟩
  · simp [list_tables, _parse, pyGet, pyGetD, bind, Except.bind, pure, Except.pure,
      List.lookup, truthy, hp, wildcardWrap, limitApplies, pyIsInstInt, pyGtZero, sqlJoin]
  · intro h; rw [if_pos h]
  · intro h
    rw [if_neg ?_]
    rw [h]
    simp

/-- Witness for C8 at the spec's examples: `"user"` (no wildcard) binds
`%user%`; `"us_r"` (wildcard) binds `us_r` verbatim. -/
theorem c8_pattern_wildcard_wrapping_witness :
    ("user".isEmpty = false ∧
      list_tables jlStub (.obj [("pattern", .str "user")]) =
        .ok ([.raw "SELECT table_schema, table_name, table_type FROM information_schema.tables WHERE ",
              .raw "1=1", .raw " AND ", .raw "table_type = \x27BASE TABLE\x27", .raw " AND ",
              .raw "table_name ILIKE ", .placeholder,
              .raw " ORDER BY table_schema, table_name", .raw " LIMIT ", .lit (.int 200)],
             [.str "%user%"])) ∧
    ("us_r".isEmpty = false ∧
      list_tables jlStub (.obj [("pattern", .str "us_r")]) =
        .ok ([.raw "SELECT table_schema, table_name, table_type FROM information_schema.tables WHERE ",
              .raw "1=1", .raw " AND ", .raw "table_type = \x27BASE TABLE\x27", .raw " AND ",
              .raw "table_name ILIKE ", .placeholder,
              .raw " ORDER BY table_schema, table_name", .raw " LIMIT ", .lit (.int 200)],
             [.str "us_r"])) :=
  ⟨⟨rfl, by exact (c8_pattern_wildcard_wrapping jlStub "user" rfl).1⟩,
   ⟨rfl, by exact (c8_pattern_wildcard_wrapping jlStub "us_r" rfl).1⟩⟩

/-! ## Claim C9 -/

/-- C9 counterexample: the claim says a LIMIT clause is appended only for a
positive **integer** limit, inlined as an integer literal, and that any
non-integer value is silently ignored. But Python's `bool` is a subtype of
`int` with `True > 0`, so the JSON boolean `true` — not an integer — gets a
LIMIT clause, inlined as the non-integer literal `true`. -/
theorem c9_limit_true_appended :
    read_sql_entry jlStub (.obj [("table", .str "t"), ("limit", .bool true)]) =
      .ok ([.raw "SELECT ", .raw "*", .raw " FROM ", .ident "t", .raw " LIMIT ",
            .lit (.bool true)], []) ∧
    renderLit (.bool true) = "true" :=
  ⟨rfl, rfl⟩

/-- C9 (amended): in the select builder a LIMIT clause is appended iff the
supplied limit is a positive integer or the boolean `true` (Python's `bool`
being an `int` subtype with `True > 0`); an integer limit is inlined as an
integer literal token (never a placeholder), and every other value is
silently ignored, the query succeeding without a LIMIT clause. -/
theorem c9_limit_positive_int_or_true :
    ∀ (jl : String → Except String JValue) (t : String) (v : JValue),
      pyMatchIdent t = true →
      (read_sql_entry jl (.obj [("table", .str t), ("limit", v)]) =
        .ok ((if limitApplies v then
                [.raw "SELECT ", .raw "*", .raw " FROM ", .ident t, .raw " LIMIT ", .lit v]
              else [.raw "SELECT ", .raw "*", .raw " FROM ", .ident t]), [])) ∧
      (limitApplies v = true ↔ (∃ n : Int, v = .int n ∧ 0 < n) ∨ v = .bool true) ∧
      (∀ n : Int, v = .int n → renderLit v = toString n) := by
  intro jl t v ht
  refine ⟨?_, ?_, ?_⟩
  · by_cases hl : limitApplies v
    · simp [read_sql_entry, _parse, pyIndexStr, pyGet, pyGetD, bind, Except.bind, List.lookup,
        readColumns, truthy, _build_where_simple, _ident, ht, hl]
    · simp [read_sql_entry, _parse, pyIndexStr, pyGet, pyGetD, bind, Except.bind, List.lookup,
        readColumns, truthy, _build_where_simple, _ident, ht, hl]
  · constructor
    · intro h
      cases v with
      | int n =>
          left
          refine ⟨n, rfl, ?_⟩
          simpa [limitApplies, pyIsInstInt, pyGtZero] using h
      | bool b =>
          right
          have : b = true := by simpa [limitApplies, pyIsInstInt, pyGtZero] using h
          rw [this]
      | null => simp [limitApplies, pyIsInstInt] at h
      | str s => simp [limitApplies, pyIsInstInt] at h
      | arr l => simp [limitApplies, pyIsInstInt] at h
      | obj l => simp [limitApplies, pyIsInstInt] at h
    · intro h
      rcases h with ⟨n, hv, hn⟩ | hv
      · subst hv; simp [limitApplies, pyIsInstInt, pyGtZero, hn]
      · subst hv; rfl
  · intro n hv
    subst hv
    rfl

/-- Witness for C9 (amended): limit `5` appends `LIMIT 5` as a literal
token; limit `"100"` (a string) is silently ignored. -/
theorem c9_limit_positive_int_or_true_witness :
    (pyMatchIdent "t" = true) ∧
    read_sql_entry jlStub (.obj [("table", .str "t"), ("limit", .int 5)]) =
      .ok ([.raw "SELECT ", .raw "*", .raw " FROM ", .ident "t", .raw " LIMIT ",
            .lit (.int 5)], []) ∧
    read_sql_entry jlStub (.obj [("table", .str "t"), ("limit", .str "100")]) =
      .ok ([.raw "SELECT ", .raw "*", .raw " FROM ", .ident "t"], []) :=
  ⟨by decide,
   (c9_limit_positive_int_or_true jlStub "t" (.int 5) (by decide)).1,
   (c9_limit_positive_int_or_true jlStub "t" (.str "100") (by decide)).1⟩

/-! ## Claim C2 -/

/-- C2 counterexample: the claim quotes the unknown-operation envelope as
`{ok: false, error: "unknown operation: <name>"}`, but the code's message
is the Turkish `"Bilinmeyen tool: <name>"` — at the unknown name `"foo"`
the error field is not `"unknown operation: foo"`. -/
theorem c2_unknown_message_is_turkish :
    (handle_tool_call exStub jlStub "foo" .null).error = some "Bilinmeyen tool: foo" ∧
    some "Bilinmeyen tool: foo" ≠ some ("unknown operation: " ++ "foo") :=
  ⟨rfl, by decide⟩

/-- C2 (amended): the dispatcher is a total error boundary — an unknown
operation name yields the envelope
`{ok: false, error: "Bilinmeyen tool: <name>"}` (the code's
unknown-operation message); every result is either `ok` or carries an
error; and any error raised by a builder invocation (validation or
database, including the execution stand-in) is caught and converted to
`{ok: false, error: <message>}`, so no exception escapes to the caller. -/
theorem c2_dispatcher_error_boundary :
    (∀ (ex : Composed → List JValue → Except String (List JValue))
       (jl : String → Except String JValue) (content : JValue) (name : String),
       name ∉ opNames →
       handle_tool_call ex jl name content =
         ⟨false, none, some ("Bilinmeyen tool: " ++ name), none⟩) ∧
    (∀ ex jl (name : String) (content : JValue),
       (handle_tool_call ex jl name content).ok = true ∨
       ((handle_tool_call ex jl name content).ok = false ∧
        (handle_tool_call ex jl name content).error.isSome = true)) ∧
    (∀ ex jl content e, runCreate ex jl content = .error e →
       handle_tool_call ex jl "create_sql_table" content = ⟨false, none, some e, none⟩) ∧
    (∀ ex jl content e, runDrop ex jl content = .error e →
       handle_tool_call ex jl "drop_sql_table" content = ⟨false, none, some e, none⟩) ∧
    (∀ ex jl content e, runInsert ex jl content = .error e →
       handle_tool_call ex jl "insert_sql_entry" content = ⟨false, none, some e, none⟩) ∧
    (∀ ex jl content e, runRead ex jl content = .error e →
       handle_tool_call ex jl "read_sql_entry" content = ⟨false, none, some e, none⟩) ∧
    (∀ ex jl content e, runDelete ex jl content = .error e →
       handle_tool_call ex jl "delete_sql_entry" content = ⟨false, none, some e, none⟩) ∧
    (∀ ex jl content e, runUpdate ex jl content = .error e →
       handle_tool_call ex jl "update_sql_entry" content = ⟨false, none, some e, none⟩) ∧
    (∀ ex jl content e, runListTables ex jl content = .error e →
       handle_tool_call ex jl "list_tables" content = ⟨false, none, some e, none⟩) := by
  refine ⟨?_, ?_, ?_, ?_, ?_, ?_, ?_, ?_, ?_⟩
  · intro ex jl content name h
    simp only [opNames, List.mem_cons, List.not_mem_nil, or_false, not_or] at h
    obtain ⟨h1, h2, h3, h4, h5, h6, h7⟩ := h
    simp [handle_tool_call, h1, h2, h3, h4, h5, h6, h7]
  · intro ex jl name content
    unfold handle_tool_call
    repeat' split
    all_goals simp
  · intro ex jl content e h
    simp [handle_tool_call, h]
  · intro ex jl content e h
    simp [handle_tool_call, h]
  · intro ex jl content e h
    simp [handle_tool_call, h]
  · intro ex jl content e h
    simp [handle_tool_call, h]
  · intro ex jl content e h
    simp [handle_tool_call, h]
  · intro ex jl content e h
    simp [handle_tool_call, h]
  · intro ex jl content e h
    simp [handle_tool_call, h]

/-- Witness for C2: the unknown name `"foo"` gets the unknown-tool
envelope, and a `create_sql_table` call whose builder raises (empty
content) gets its message converted into an error envelope. -/
theorem c2_dispatcher_error_boundary_witness :
    ("foo" ∉ opNames) ∧
    handle_tool_call exStub jlStub "foo" .null =
      ⟨false, none, some ("Bilinmeyen tool: " ++ "foo"), none⟩ ∧
    runCreate exStub jlStub .null = .error "content boş. JSON string bekleniyor." ∧
    handle_tool_call exStub jlStub "create_sql_table" .null =
      ⟨false, none, some "content boş. JSON string bekleniyor.", none⟩ :=
  ⟨by decide,
   c2_dispatcher_error_boundary.1 exStub jlStub .null "foo" (by decide),
   rfl,
   c2_dispatcher_error_boundary.2.2.1 exStub jlStub .null _ rfl⟩

end SqlAssist
